import Mathlib

/-!
Verification of the marine-bridge structural evaluator (`app.py`).

The physics core of the application (lines 22-53 of `app.py`) is a straight-line
sequence of arithmetic formulas turning slider inputs into forces, a base
moment, stresses and a deflection curve, followed by a status banner
(lines 108-111).  We embed that core shallowly: every numeric quantity becomes
an exact rational (`ℚ`), numeric literals of the source (`2500`, `9.81`,
`25e6`, ...) become the same literals over `ℚ`, and `np.pi` becomes the exact
rational value of the IEEE-754 double that `numpy` uses.  The only real-valued
quantity is the combined stress, which the source computes with `np.sqrt`; it
is modelled with `Real.sqrt`.

Rational division in Lean is total with `x / 0 = 0`; the source, whose
scalars up to line 51 are plain Python floats (the sliders and `np.pi` are
floats; numpy arrays first appear at line 52), instead raises an uncaught
`ZeroDivisionError` at the first zero-denominator division and halts.
Wherever a claim depends on that distinction, `evaluateE` renders the run
with those exception semantics, aborting with `PyError.zeroDivision` at the
stress divisions of lines 46-47 when their denominators are zero.
-/

namespace Bridge

/-- The exact rational value of the IEEE-754 double constant `np.pi`
(`0x400921FB54442D18`), the value the source multiplies with. -/
def npPi : ℚ := 884279719003555 / 281474976710656

theorem npPi_pos : 0 < npPi := by norm_num [npPi]

/-- The slider inputs of `app.py` (lines 11-20): deck geometry, pier geometry
and the three environmental hazards.  `H_wave` is the water depth slider. -/
structure Input where
  L_deck : ℚ
  W_deck : ℚ
  T_deck : ℚ
  H_piers : ℚ
  D_piers : ℚ
  V_wind : ℚ
  H_wave : ℚ
  A_seismic : ℚ
deriving DecidableEq, Repr

/-- Material constants of `app.py` lines 23-26: Young's modulus `E`. -/
def E : ℚ := 30e9

/-- Concrete density `rho_c` (kg/m³), line 24. -/
def rho_c : ℚ := 2500

/-- Water density `rho_w` (kg/m³), line 25. -/
def rho_w : ℚ := 1025

/-- Elastic limit `yield_limit` (Pa), line 26. -/
def yield_limit : ℚ := 25e6

/-- Line 28: `Area_pier = np.pi * (D_piers/2)**2`. -/
def Area_pier (i : Input) : ℚ := npPi * (i.D_piers / 2) ^ 2

/-- Line 29: `I_pier = (np.pi * D_piers**4) / 64`. -/
def I_pier (i : Input) : ℚ := npPi * i.D_piers ^ 4 / 64

/-- Line 30: `Vol_deck = L_deck * W_deck * T_deck`. -/
def Vol_deck (i : Input) : ℚ := i.L_deck * i.W_deck * i.T_deck

/-- Line 31: `Vol_piers = Area_pier * H_piers * 2`. -/
def Vol_piers (i : Input) : ℚ := Area_pier i * i.H_piers * 2

/-- Line 32: `Mass_total = (Vol_deck + Vol_piers) * rho_c`. -/
def Mass_total (i : Input) : ℚ := (Vol_deck i + Vol_piers i) * rho_c

/-- Line 35: `F_wind = 0.5 * 1.2 * V_wind**2 * (L_deck*T_deck +
D_piers*(H_piers - H_wave))`.  Note the emerged pier height
`H_piers - H_wave` is used as written, with no clamping. -/
def F_wind (i : Input) : ℚ :=
  0.5 * 1.2 * i.V_wind ^ 2 * (i.L_deck * i.T_deck + i.D_piers * (i.H_piers - i.H_wave))

/-- Line 36: `F_water = 0.5 * rho_w * 1.5 * D_piers * H_wave**2`. -/
def F_water (i : Input) : ℚ := 0.5 * rho_w * 1.5 * i.D_piers * i.H_wave ^ 2

/-- Line 37: `F_seismic = Mass_total * (A_seismic * 9.81)`. -/
def F_seismic (i : Input) : ℚ := Mass_total i * (i.A_seismic * 9.81)

/-- Line 38: `Total_F_h = (F_wind + F_water + F_seismic) / 2`. -/
def Total_F_h (i : Input) : ℚ := (F_wind i + F_water i + F_seismic i) / 2

/-- Line 41: `F_buoyancy = (Area_pier * H_wave * 2) * rho_w * 9.81`. -/
def F_buoyancy (i : Input) : ℚ := Area_pier i * i.H_wave * 2 * rho_w * 9.81

/-- Line 42: `Weight_net = Mass_total * 9.81 - F_buoyancy`. -/
def Weight_net (i : Input) : ℚ := Mass_total i * 9.81 - F_buoyancy i

/-- Line 45: `Moment_base = F_wind*H_piers + F_water*H_wave/2 +
F_seismic*H_piers/2`. -/
def Moment_base (i : Input) : ℚ :=
  F_wind i * i.H_piers + F_water i * i.H_wave / 2 + F_seismic i * i.H_piers / 2

/-- Line 46: `sigma_axial = (Weight_net / 2) / Area_pier`, as a total rational
(recall `x / 0 = 0` in `ℚ`; on a zero `Area_pier` the float source instead
raises and halts — that abort is modelled by `evaluateE`). -/
def sigma_axial (i : Input) : ℚ := Weight_net i / 2 / Area_pier i

/-- Line 47: `sigma_bending = (Moment_base/2 * (D_piers/2)) / I_pier`. -/
def sigma_bending (i : Input) : ℚ := Moment_base i / 2 * (i.D_piers / 2) / I_pier i

/-- Line 48: `sigma_max = np.sqrt(sigma_axial**2 + sigma_bending**2)`. -/
noncomputable def sigma_max (i : Input) : ℝ :=
  Real.sqrt ((sigma_axial i : ℝ) ^ 2 + (sigma_bending i : ℝ) ^ 2)

/-- The safety ratio `sigma_max / yield_limit` displayed at line 61 and used
by the banner at line 108. -/
noncomputable def safety_ratio (i : Input) : ℝ := sigma_max i / (yield_limit : ℝ)

/-- Line 51: `max_d = (Total_F_h * H_piers**3) / (3 * E * I_pier)`. -/
def max_d (i : Input) : ℚ := Total_F_h i * i.H_piers ^ 3 / (3 * E * I_pier i)

/-- Line 52: `z = np.linspace(0, H_piers, 20)`: twenty evenly spaced heights
from `0` to `H_piers`, the k-th being `k * H_piers / 19`. -/
def zlist (i : Input) : List ℚ :=
  (List.range 20).map fun k : ℕ => (k : ℚ) * i.H_piers / 19

/-- Line 53: `deflection_curve = max_d * (z/H_piers)**2`, elementwise over
the twenty sampled heights. -/
def deflection_curve (i : Input) : List ℚ :=
  (zlist i).map fun zv => max_d i * (zv / i.H_piers) ^ 2

/-- Everything the evaluation block (lines 28-53) produces, besides the
real-valued `sigma_max`/`safety_ratio`: the forces, the net weight, the base
moment, the two stress components and the deflection samples. -/
structure EvaluationResult where
  wind_force : ℚ
  wave_force : ℚ
  seismic_force : ℚ
  buoyancy_force : ℚ
  net_weight : ℚ
  base_moment : ℚ
  axial_stress : ℚ
  bending_stress : ℚ
  deflection : List ℚ
deriving DecidableEq, Repr

/-- One pass of the evaluation block of `app.py` as a single pure function:
the value of a run that completes.  When a stress denominator is zero the
source instead raises before finishing; `evaluateE` is the faithful fallible
rendering and agrees with `Except.ok (evaluate i)` whenever no division
raises (`evaluateE_completes`). -/
def evaluate (i : Input) : EvaluationResult where
  wind_force := F_wind i
  wave_force := F_water i
  seismic_force := F_seismic i
  buoyancy_force := F_buoyancy i
  net_weight := Weight_net i
  base_moment := Moment_base i
  axial_stress := sigma_axial i
  bending_stress := sigma_bending i
  deflection := deflection_curve i

/-- Python's built-in `ZeroDivisionError`, the exception a zero-denominator
float division raises: a bare error identifying no field. -/
inductive PyError where
  | zeroDivision
deriving DecidableEq, Repr

/-- The three fields whose zero values the spec (§7) says must be surfaced
in a `DomainError`. -/
inductive FieldName where
  | pier_cross_section_area
  | pier_moment_of_inertia
  | yield_strength
deriving DecidableEq, Repr

/-- Modelled from the spec: the `DomainError` of §7, "carrying the
offending field name"; no such error type exists in `src/app.py`. -/
inductive DomainError where
  | zeroField (f : FieldName)
deriving DecidableEq, Repr

/-- The offending-field payload of the code's exception: Python's
`ZeroDivisionError` carries none. -/
def PyError.offendingField : PyError → Option FieldName := fun _ => none

/-- The offending-field payload the spec's `DomainError` carries. -/
def DomainError.offendingField : DomainError → Option FieldName
  | .zeroField f => some f

/-- The evaluation block with the source's exception semantics: the scalars
of lines 28-51 are plain Python floats, so the first division whose
denominator is zero raises `ZeroDivisionError` and the run halts there with
no result.  The first such division reached is `sigma_axial`'s by
`Area_pier` (line 46), then `sigma_bending`'s by `I_pier` (line 47); every
earlier division is by a nonzero constant, and nothing after line 47 runs
when either raises. -/
def evaluateE (i : Input) : Except PyError EvaluationResult :=
  if Area_pier i = 0 then .error .zeroDivision
  else if I_pier i = 0 then .error .zeroDivision
  else .ok (evaluate i)

/-- Modelled from the spec: the fail-fast contract of §7 — on a zero
`pier_cross_section_area`, `pier_moment_of_inertia` or `yield_strength`,
return a `DomainError` carrying the offending field name, else the complete
result.  Written from the spec's words, to compare against `evaluateE`. -/
def evaluateSpec (i : Input) : Except DomainError EvaluationResult :=
  if Area_pier i = 0 then .error (.zeroField .pier_cross_section_area)
  else if I_pier i = 0 then .error (.zeroField .pier_moment_of_inertia)
  else if yield_limit = 0 then .error (.zeroField .yield_strength)
  else .ok (evaluate i)

/-- On inputs where neither stress denominator is zero, the run completes
and the exception-aware evaluation agrees with `evaluate`. -/
theorem evaluateE_completes (i : Input) (h : Area_pier i ≠ 0)
    (hI : I_pier i ≠ 0) : evaluateE i = Except.ok (evaluate i) := by
  simp [evaluateE, h, hI]

/-- The status banner of `app.py` lines 108-111: `true` is the failure
("RUPTURE") branch, taken exactly when `sigma_max > yield_limit`. -/
def bannerFailure (sigma yieldL : ℚ) : Bool := sigma > yieldL

/-- The three display statuses of the classification in spec §4.2. -/
inductive Status where
  | Failure
  | Critical
  | Safe
deriving DecidableEq, Repr

/-- Modelled from the spec: the three-level classification of §4.2 is not in
`src/app.py`, which only has the two-branch banner `sigma_max > yield_limit`
(lines 108-111); it belongs to the other engine variants of the repository.
Following the spec's words: `ratio > 1.0 → Failure`, `0.8 < ratio ≤ 1.0 →
Critical`, `ratio ≤ 0.8 → Safe`, with strict `>` comparisons. -/
def classify (r : ℚ) : Status :=
  if r > 1 then .Failure else if r > 0.8 then .Critical else .Safe

/-- The clamped wind force the spec describes ("emerged height clamped to
≥ 0", §4.1 step 2), written from the spec's words to compare against the
source's `F_wind`. -/
def F_windClamped (i : Input) : ℚ :=
  0.5 * 1.2 * i.V_wind ^ 2 * (i.L_deck * i.T_deck + i.D_piers * max (i.H_piers - i.H_wave) 0)

/-! ### C1: three-level classification over the safety ratio -/

/-- C1 counterexample: under the three bands with the strict `>` comparisons
the claim itself cites, a ratio of exactly `0.8` satisfies `ratio ≤ 0.8` and
so classifies as `Safe`, not `Critical` — the claim's two halves (the band
map and the "exactly `0.8` is `Critical`" boundary sentence) contradict each
other at `0.8`. -/
theorem C1_counterexample :
    classify 0.8 = Status.Safe ∧ classify 0.8 ≠ Status.Critical := by
  have h : classify 0.8 = Status.Safe := by norm_num [classify]
  exact ⟨h, by rw [h]; exact fun hc => Status.noConfusion hc⟩

/-- C1 amended: the classification is the three-level map with strict `>`
comparisons: `ratio > 1` is `Failure`, `0.8 < ratio ≤ 1` is `Critical`,
`ratio ≤ 0.8` is `Safe`; exactly `1` classifies as `Critical`, exactly `0.8`
as `Safe` (each band is closed on its upper edge), `1.0000001` as `Failure`
and `0.7999999` as `Safe`; the `Failure` band agrees with the source's
strict banner test `sigma_max > yield_limit`. -/
theorem C1_classification_bands :
    (∀ r : ℚ, (classify r = .Failure ↔ 1 < r) ∧
      (classify r = .Critical ↔ 0.8 < r ∧ r ≤ 1) ∧
      (classify r = .Safe ↔ r ≤ 0.8)) ∧
    classify 1 = .Critical ∧ classify 0.8 = .Safe ∧
    classify 1.0000001 = .Failure ∧ classify 0.7999999 = .Safe ∧
    ∀ s y : ℚ, 0 < y → (bannerFailure s y = true ↔ classify (s / y) = .Failure) := by
  have hband : ∀ r : ℚ, (classify r = .Failure ↔ 1 < r) ∧
      (classify r = .Critical ↔ 0.8 < r ∧ r ≤ 1) ∧
      (classify r = .Safe ↔ r ≤ 0.8) := by
    intro r
    unfold classify
    split_ifs with h1 h2
    · exact ⟨iff_of_true rfl h1,
        iff_of_false id (fun hc => absurd h1 (not_lt.mpr hc.2)),
        iff_of_false id (fun hc => absurd h1 (not_lt.mpr (hc.trans (by norm_num))))⟩
    · exact ⟨iff_of_false id h1,
        iff_of_true rfl ⟨h2, not_lt.mp h1⟩,
        iff_of_false id (not_le.mpr h2)⟩
    · exact ⟨iff_of_false id h1,
        iff_of_false id (fun hc => absurd hc.1 h2),
        iff_of_true rfl (not_lt.mp h2)⟩
  refine ⟨hband, by norm_num [classify], by norm_num [classify],
    by norm_num [classify], by norm_num [classify], ?_⟩
  intro s y hy
  have hiff := (hband (s / y)).1
  rw [hiff]
  simp only [bannerFailure, gt_iff_lt, decide_eq_true_eq]
  rw [one_lt_div hy]

/-- Witness for C1 at a concrete stress/limit pair. -/
theorem C1_classification_bands_witness :
    bannerFailure 26000000 25000000 = true ↔
      classify (26000000 / 25000000) = Status.Failure :=
  C1_classification_bands.2.2.2.2.2 26000000 25000000 (by norm_num)

/-! ### C2: the emerged pier height is NOT clamped -/

/-- C2 counterexample: at deck 50×10×1, pier height 10 m, diameter 8 m, wind
10 m/s, water depth 20 m (deeper than the pier is tall), the source wind
force is `-1800` — the pier face contributes *negative* exposed area — and
differs from the spec's clamped formula, which gives `3000`. -/
theorem C2_counterexample :
    (Input.mk 50 10 1 10 8 10 20 0).H_piers < (Input.mk 50 10 1 10 8 10 20 0).H_wave ∧
    F_wind (Input.mk 50 10 1 10 8 10 20 0) = -1800 ∧
    F_windClamped (Input.mk 50 10 1 10 8 10 20 0) = 3000 ∧
    F_wind (Input.mk 50 10 1 10 8 10 20 0) ≠
      F_windClamped (Input.mk 50 10 1 10 8 10 20 0) := by
  refine ⟨by norm_num, ?_, ?_, ?_⟩ <;> norm_num [F_wind, F_windClamped]

/-- C2 amended: the source applies no clamping: whenever the water depth
exceeds the pier height (with positive diameter and wind speed), the pier
contributes strictly negative exposed area, so the wind force is strictly
below the deck-only term `0.5·1.2·V²·(L·T)`. -/
theorem C2_no_clamp (i : Input) (hD : 0 < i.D_piers) (hV : 0 < i.V_wind)
    (hw : i.H_piers < i.H_wave) :
    F_wind i < 0.5 * 1.2 * i.V_wind ^ 2 * (i.L_deck * i.T_deck) := by
  unfold F_wind
  have hc : (0:ℚ) < 0.5 * 1.2 * i.V_wind ^ 2 := by positivity
  have hneg : i.D_piers * (i.H_piers - i.H_wave) < 0 :=
    mul_neg_of_pos_of_neg hD (by linarith)
  nlinarith

/-- Witness for C2's amended statement at the counterexample input. -/
theorem C2_no_clamp_witness :
    F_wind (Input.mk 50 10 1 10 8 10 20 0) < 0.5 * 1.2 * (10:ℚ) ^ 2 * (50 * 1) :=
  C2_no_clamp (Input.mk 50 10 1 10 8 10 20 0)
    (by norm_num) (by norm_num) (by norm_num)

/-! ### C6: bending stress scales as 1/D³ -/

/-- The bending stress of line 47 as a function of the base moment and the
pier diameter alone (`I = π·D⁴/64` inlined), for stating the scaling law
with the moment held constant. -/
def sigma_bendingOf (M D : ℚ) : ℚ := M / 2 * (D / 2) / (npPi * D ^ 4 / 64)

/-- C6: with the base moment held constant, doubling the pier diameter
divides the bending stress by exactly 8; and `sigma_bendingOf` is exactly
the source's `sigma_bending` applied to its own base moment and diameter. -/
theorem C6_bending_scaling (M D : ℚ) (hM : 0 < M) (hD : 0 < D) :
    sigma_bendingOf M (2 * D) = sigma_bendingOf M D / 8 ∧
    ∀ i : Input, sigma_bending i = sigma_bendingOf (Moment_base i) i.D_piers := by
  constructor
  · unfold sigma_bendingOf
    have hpi := npPi_pos
    have hD' : D ≠ 0 := ne_of_gt hD
    field_simp
    ring
  · intro i
    rfl

/-- Witness for C6 at moment 64 and diameter 1. -/
theorem C6_bending_scaling_witness :
    sigma_bendingOf 64 (2 * 1) = sigma_bendingOf 64 1 / 8 ∧
    sigma_bending (Input.mk 1 1 1 1 1 1 1 1) =
      sigma_bendingOf (Moment_base (Input.mk 1 1 1 1 1 1 1 1)) 1 :=
  ⟨(C6_bending_scaling 64 1 (by norm_num) (by norm_num)).1,
   (C6_bending_scaling 64 1 (by norm_num) (by norm_num)).2 (Input.mk 1 1 1 1 1 1 1 1)⟩

/-! ### C7: fixed material catalog -/

/-- A material profile: Young's modulus, yield strength, density. -/
structure Material where
  young_modulus : ℚ
  yield_strength : ℚ
  density : ℚ
deriving DecidableEq, Repr

/-- The two catalog materials named by the spec. -/
inductive MaterialName where
  | Concrete
  | Steel
deriving DecidableEq, Repr

/-- Modelled from the spec: the material catalog of §3/§6 (at minimum
Concrete and Steel, each with fixed constants).  `src/app.py` hard-codes a
single material — the Concrete constants `E`, `yield_limit`, `rho_c` of
lines 23-26 — with no selection and no Steel entry; the catalog belongs to
the repository's other variants.  Steel's constants are not listed anywhere
in the spec, so representative fixed values are used; no claim depends on
their magnitude, only on their constancy. -/
def catalog : MaterialName → Material
  | .Concrete => ⟨E, yield_limit, rho_c⟩
  | .Steel => ⟨200e9, 250e6, 7850⟩

/-- C7: the catalog contains Concrete and Steel; Concrete's constants are
exactly the source's `E`/`yield_limit`/`rho_c` (30 GPa, 25 MPa, 2500 kg/m³);
and the constants never vary: any two lookups of the same material agree. -/
theorem C7_material_catalog :
    catalog .Concrete = ⟨30e9, 25e6, 2500⟩ ∧
    (catalog .Concrete).young_modulus = E ∧
    (catalog .Concrete).yield_strength = yield_limit ∧
    (catalog .Concrete).density = rho_c ∧
    (∀ m : MaterialName, ∀ x y : Material, x = catalog m → y = catalog m → x = y) := by
  refine ⟨?_, rfl, rfl, rfl, ?_⟩
  · show (⟨E, yield_limit, rho_c⟩ : Material) = ⟨30e9, 25e6, 2500⟩
    norm_num [E, yield_limit, rho_c]
  · rintro m x y rfl rfl
    rfl

/-- Witness for C7: two lookups of Steel agree. -/
theorem C7_material_catalog_witness :
    catalog MaterialName.Steel = catalog MaterialName.Steel :=
  C7_material_catalog.2.2.2.2 MaterialName.Steel
    (catalog MaterialName.Steel) (catalog MaterialName.Steel) rfl rfl

/-! ### C8: fixed-base boundary condition -/

/-- C8: the first deflection sample is exactly zero for every input. -/
theorem C8_deflection_at_base (i : Input) :
    (deflection_curve i).head? = some 0 := by
  rw [deflection_curve, zlist, show (20:ℕ) = 19 + 1 from rfl, List.range_succ_eq_map]
  simp

/-! ### C3: zero geometry aborts with a bare ZeroDivisionError -/

/-- C3 counterexample: with `pier_diameter = 0` (other fields at their
defaults) the cross-section area is zero and the run aborts at the
axial-stress division of line 46 with Python's bare `ZeroDivisionError` —
an error carrying no field name — whereas the claim's `DomainError` names
the offending field (`pier_cross_section_area`, per the spec-modelled
`evaluateSpec`). -/
theorem C3_counterexample :
    Area_pier (Input.mk 200 15 2.5 30 0 40 5 0.3) = 0 ∧
    evaluateE (Input.mk 200 15 2.5 30 0 40 5 0.3) =
      Except.error PyError.zeroDivision ∧
    evaluateSpec (Input.mk 200 15 2.5 30 0 40 5 0.3) =
      Except.error (DomainError.zeroField FieldName.pier_cross_section_area) ∧
    PyError.offendingField PyError.zeroDivision = none ∧
    DomainError.offendingField
      (DomainError.zeroField FieldName.pier_cross_section_area) =
      some FieldName.pier_cross_section_area := by
  have harea : Area_pier (Input.mk 200 15 2.5 30 0 40 5 0.3) = 0 := by
    norm_num [Area_pier, npPi]
  exact ⟨harea, by simp [evaluateE, harea], by simp [evaluateSpec, harea],
    rfl, rfl⟩

/-- C3 amended: with `pier_diameter = 0` the derived area and inertia are
zero and the run really does fail fast — the axial-stress division of
line 46 raises at once, no result (partial or complete) is returned, and no
NaN or infinity is produced — but the failure is an uncaught bare
`ZeroDivisionError` identifying no field, not the spec's `DomainError`
carrying the offending field name (the source defines no error type at
all); a zero `yield_strength` is unreachable, `yield_limit` being the
constant `25e6`. -/
theorem C3_zero_division_abort (i : Input) (hD : i.D_piers = 0) :
    Area_pier i = 0 ∧ I_pier i = 0 ∧
    evaluateE i = Except.error PyError.zeroDivision ∧
    (∀ r : EvaluationResult, evaluateE i ≠ Except.ok r) ∧
    PyError.offendingField PyError.zeroDivision = none := by
  have harea : Area_pier i = 0 := by simp [Area_pier, hD]
  have hI : I_pier i = 0 := by simp [I_pier, hD]
  have hE : evaluateE i = Except.error PyError.zeroDivision := by
    simp [evaluateE, harea]
  refine ⟨harea, hI, hE, ?_, rfl⟩
  intro r hr
  rw [hE] at hr
  exact Except.noConfusion hr

/-- Witness for C3's amended statement at the zero-diameter input. -/
theorem C3_zero_division_abort_witness :
    Area_pier (Input.mk 200 15 2.5 30 0 40 5 0.3) = 0 ∧
    evaluateE (Input.mk 200 15 2.5 30 0 40 5 0.3) =
      Except.error PyError.zeroDivision ∧
    evaluateE (Input.mk 200 15 2.5 30 0 40 5 0.3) ≠
      Except.ok (evaluate (Input.mk 200 15 2.5 30 0 40 5 0.3)) :=
  ⟨(C3_zero_division_abort (Input.mk 200 15 2.5 30 0 40 5 0.3) rfl).1,
   (C3_zero_division_abort (Input.mk 200 15 2.5 30 0 40 5 0.3) rfl).2.2.1,
   (C3_zero_division_abort (Input.mk 200 15 2.5 30 0 40 5 0.3) rfl).2.2.2.1
     (evaluate (Input.mk 200 15 2.5 30 0 40 5 0.3))⟩

/-! ### C5: zero-hazard baseline -/

/-- C5: with zero wind, zero water depth and zero seismic acceleration (and
positive geometry), the bending stress vanishes and the combined stress
reduces to the axial stress alone. -/
theorem C5_zero_hazard (i : Input) (hV : i.V_wind = 0) (hw : i.H_wave = 0)
    (hA : i.A_seismic = 0) (hL : 0 < i.L_deck) (hW : 0 < i.W_deck)
    (hT : 0 < i.T_deck) (hH : 0 < i.H_piers) (hD : 0 < i.D_piers) :
    sigma_bending i = 0 ∧ sigma_max i = (sigma_axial i : ℝ) := by
  have hpi := npPi_pos
  have hbend : sigma_bending i = 0 := by
    norm_num [sigma_bending, Moment_base, F_wind, F_water, F_seismic, hV, hw, hA]
  have harea : 0 < Area_pier i := by unfold Area_pier; positivity
  have hmass : 0 ≤ Mass_total i := by
    unfold Mass_total Vol_deck Vol_piers Area_pier rho_c
    positivity
  have hbuoy : F_buoyancy i = 0 := by simp [F_buoyancy, hw]
  have hax : 0 ≤ sigma_axial i := by
    unfold sigma_axial Weight_net
    rw [hbuoy, sub_zero]
    exact div_nonneg (div_nonneg (by positivity) (by norm_num)) harea.le
  refine ⟨hbend, ?_⟩
  have hax' : (0:ℝ) ≤ (sigma_axial i : ℝ) := by exact_mod_cast hax
  unfold sigma_max
  rw [hbend]
  push_cast
  norm_num [Real.sqrt_sq hax']

/-- Witness for C5 at the default geometry with all hazards zero. -/
theorem C5_zero_hazard_witness :
    sigma_bending (Input.mk 200 15 2.5 30 4 0 0 0) = 0 ∧
    sigma_max (Input.mk 200 15 2.5 30 4 0 0 0) =
      (sigma_axial (Input.mk 200 15 2.5 30 4 0 0 0) : ℝ) :=
  C5_zero_hazard (Input.mk 200 15 2.5 30 4 0 0 0) rfl rfl rfl
    (by norm_num) (by norm_num) (by norm_num) (by norm_num) (by norm_num)

/-! ### C9: determinism -/

/-- C9: the evaluation is a pure function of its input: two runs on equal
inputs yield equal results — every force, the net weight, the base moment,
both stress components, every deflection sample, and the real-valued
combined stress and safety ratio. -/
theorem C9_determinism (i j : Input) (h : i = j) :
    evaluate i = evaluate j ∧ sigma_max i = sigma_max j ∧
      safety_ratio i = safety_ratio j := by
  subst h
  exact ⟨rfl, rfl, rfl⟩

/-- Witness for C9 at the default slider input. -/
theorem C9_determinism_witness :
    evaluate (Input.mk 200 15 2.5 30 4 40 5 0.3) =
      evaluate (Input.mk 200 15 2.5 30 4 40 5 0.3) ∧
    sigma_max (Input.mk 200 15 2.5 30 4 40 5 0.3) =
      sigma_max (Input.mk 200 15 2.5 30 4 40 5 0.3) ∧
    safety_ratio (Input.mk 200 15 2.5 30 4 40 5 0.3) =
      safety_ratio (Input.mk 200 15 2.5 30 4 40 5 0.3) :=
  C9_determinism (Input.mk 200 15 2.5 30 4 40 5 0.3)
    (Input.mk 200 15 2.5 30 4 40 5 0.3) rfl

/-! ### C10: shape of the deflection profile -/

theorem zlist_length (i : Input) : (zlist i).length = 20 := by
  rw [zlist, List.length_map, List.length_range]

theorem deflection_curve_length (i : Input) : (deflection_curve i).length = 20 := by
  rw [deflection_curve, List.length_map, zlist_length]

theorem zlist_getD (i : Input) (k : ℕ) (hk : k < 20) :
    (zlist i).getD k 0 = (k : ℚ) * i.H_piers / 19 := by
  have hk' : k < (zlist i).length := by rw [zlist_length]; exact hk
  rw [List.getD_eq_getElem _ _ hk']
  simp [zlist]

theorem deflection_curve_getD (i : Input) (k : ℕ) (hk : k < 20) :
    (deflection_curve i).getD k 0 =
      max_d i * ((k : ℚ) * i.H_piers / 19 / i.H_piers) ^ 2 := by
  have hk' : k < (deflection_curve i).length := by
    rw [deflection_curve_length]; exact hk
  rw [List.getD_eq_getElem _ _ hk']
  simp [deflection_curve, zlist]

/-- C10: for positive pier height the profile is exactly twenty evenly
spaced heights from `0` to `H_piers` inclusive (the k-th height being
`k·H/19`, consecutive heights `H/19` apart), the displacement at each
height is `max_d · (z/H)²` — the simplified quadratic shape — and the last
sample's displacement is exactly `max_d`. -/
theorem C10_deflection_profile (i : Input) (hH : 0 < i.H_piers) :
    (zlist i).length = 20 ∧ (deflection_curve i).length = 20 ∧
    (zlist i).getD 0 0 = 0 ∧ (zlist i).getD 19 0 = i.H_piers ∧
    (∀ k, k < 20 → (zlist i).getD k 0 = (k : ℚ) * i.H_piers / 19) ∧
    (∀ k, 0 < k → k < 20 →
      (zlist i).getD k 0 - (zlist i).getD (k - 1) 0 = i.H_piers / 19) ∧
    (∀ k, k < 20 →
      (deflection_curve i).getD k 0 =
        max_d i * ((zlist i).getD k 0 / i.H_piers) ^ 2) ∧
    (deflection_curve i).getD 19 0 = max_d i := by
  have hH' : i.H_piers ≠ 0 := ne_of_gt hH
  refine ⟨zlist_length i, deflection_curve_length i, ?_, ?_, ?_, ?_, ?_, ?_⟩
  · rw [zlist_getD i 0 (by norm_num)]
    norm_num
  · rw [zlist_getD i 19 (by norm_num)]
    field_simp
  · exact fun k hk => zlist_getD i k hk
  · intro k hk0 hk
    rw [zlist_getD i k hk, zlist_getD i (k - 1) (by omega)]
    rw [Nat.cast_sub hk0]
    push_cast
    ring
  · intro k hk
    rw [deflection_curve_getD i k hk, zlist_getD i k hk]
  · rw [deflection_curve_getD i 19 (by norm_num)]
    push_cast
    have h19 : (19 : ℚ) * i.H_piers / 19 / i.H_piers = 1 := by field_simp
    rw [h19]
    norm_num

/-- Witness for C10 at the default input. -/
theorem C10_deflection_profile_witness :
    (zlist (Input.mk 200 15 2.5 30 4 40 5 0.3)).getD 0 0 = 0 ∧
    (zlist (Input.mk 200 15 2.5 30 4 40 5 0.3)).getD 19 0 = 30 ∧
    (deflection_curve (Input.mk 200 15 2.5 30 4 40 5 0.3)).getD 19 0 =
      max_d (Input.mk 200 15 2.5 30 4 40 5 0.3) :=
  ⟨(C10_deflection_profile (Input.mk 200 15 2.5 30 4 40 5 0.3) (by norm_num)).2.2.1,
   (C10_deflection_profile (Input.mk 200 15 2.5 30 4 40 5 0.3) (by norm_num)).2.2.2.1,
   (C10_deflection_profile (Input.mk 200 15 2.5 30 4 40 5 0.3)
      (by norm_num)).2.2.2.2.2.2.2⟩

/-! ### C4: monotonicity of the combined stress in the hazard fields -/

theorem sq_add_sq_lt {a₁ b₁ a₂ b₂ : ℚ} (ha₂ : 0 ≤ a₂) (hb₂ : 0 ≤ b₂)
    (ha : a₂ < a₁) (hb : b₂ < b₁) : a₂ ^ 2 + b₂ ^ 2 < a₁ ^ 2 + b₁ ^ 2 := by
  nlinarith

theorem sqrt_comb_le {a b₁ b₂ : ℚ} (hb₁ : 0 ≤ b₁) (hb : b₁ ≤ b₂) :
    Real.sqrt ((a : ℝ) ^ 2 + (b₁ : ℝ) ^ 2) ≤
      Real.sqrt ((a : ℝ) ^ 2 + (b₂ : ℝ) ^ 2) := by
  apply Real.sqrt_le_sqrt
  have h1 : (b₁ : ℝ) ≤ (b₂ : ℝ) := by exact_mod_cast hb
  have h0 : (0 : ℝ) ≤ (b₁ : ℝ) := by exact_mod_cast hb₁
  nlinarith

/-- If two inputs share their axial stress, diameter and inertia, and the
base moments are nonnegative and ordered, the combined stresses follow. -/
theorem sigma_max_le_of_moment {i j : Input} (hax : sigma_axial i = sigma_axial j)
    (hD : i.D_piers = j.D_piers) (hI : I_pier i = I_pier j)
    (hIpos : 0 < I_pier j) (hDpos : 0 ≤ j.D_piers)
    (hM1 : 0 ≤ Moment_base i) (hMle : Moment_base i ≤ Moment_base j) :
    sigma_max i ≤ sigma_max j := by
  have hb1 : 0 ≤ sigma_bending i := by
    unfold sigma_bending
    rw [hD, hI]
    exact div_nonneg (mul_nonneg (div_nonneg hM1 (by norm_num))
      (div_nonneg hDpos (by norm_num))) hIpos.le
  have hble : sigma_bending i ≤ sigma_bending j := by
    unfold sigma_bending
    rw [hD, hI]
    exact (div_le_div_iff_of_pos_right hIpos).mpr
      (mul_le_mul_of_nonneg_right (by linarith) (div_nonneg hDpos (by norm_num)))
  unfold sigma_max
  rw [hax]
  exact sqrt_comb_le hb1 hble

/-- C4 counterexample: two inputs that agree everywhere except that the
second has water depth `1` instead of `0` — well inside the regime where
the emerged pier height `30 − 1` stays nonnegative — yet the deeper-water
input has the strictly *smaller* combined stress: raising the water level
shrinks the wind-exposed pier face (so the base moment drops) and adds
buoyancy (so the axial stress drops). -/
theorem C4_counterexample :
    (Input.mk 200 15 2.5 30 4 100 0 0.3).H_wave <
      (Input.mk 200 15 2.5 30 4 100 1 0.3).H_wave ∧
    0 ≤ (Input.mk 200 15 2.5 30 4 100 1 0.3).H_piers -
      (Input.mk 200 15 2.5 30 4 100 1 0.3).H_wave ∧
    sigma_max (Input.mk 200 15 2.5 30 4 100 1 0.3) <
      sigma_max (Input.mk 200 15 2.5 30 4 100 0 0.3) := by
  refine ⟨by norm_num, by norm_num, ?_⟩
  have ha2 : 0 ≤ sigma_axial (Input.mk 200 15 2.5 30 4 100 1 0.3) := by
    norm_num [sigma_axial, Weight_net, Mass_total, Vol_deck, Vol_piers,
      Area_pier, F_buoyancy, rho_c, rho_w, npPi]
  have hb2 : 0 ≤ sigma_bending (Input.mk 200 15 2.5 30 4 100 1 0.3) := by
    norm_num [sigma_bending, Moment_base, F_wind, F_water, F_seismic,
      Mass_total, Vol_deck, Vol_piers, Area_pier, I_pier, rho_c, rho_w, npPi]
  have ha : sigma_axial (Input.mk 200 15 2.5 30 4 100 1 0.3) <
      sigma_axial (Input.mk 200 15 2.5 30 4 100 0 0.3) := by
    norm_num [sigma_axial, Weight_net, Mass_total, Vol_deck, Vol_piers,
      Area_pier, F_buoyancy, rho_c, rho_w, npPi]
  have hb : sigma_bending (Input.mk 200 15 2.5 30 4 100 1 0.3) <
      sigma_bending (Input.mk 200 15 2.5 30 4 100 0 0.3) := by
    norm_num [sigma_bending, Moment_base, F_wind, F_water, F_seismic,
      Mass_total, Vol_deck, Vol_piers, Area_pier, I_pier, rho_c, rho_w, npPi]
  have key := sq_add_sq_lt ha2 hb2 ha hb
  unfold sigma_max
  apply Real.sqrt_lt_sqrt
  · positivity
  · exact_mod_cast key

/-- C4 amended: with nonnegative geometry and hazards, positive diameter,
and the water depth at or below the pier height (nonnegative emerged face),
increasing the wind speed or the seismic acceleration never decreases the
combined stress; the water-depth part of the claim is refuted by
`C4_counterexample`, even inside the nonnegative-emerged-height regime. -/
theorem C4_wind_seismic_monotone (i : Input)
    (hL : 0 ≤ i.L_deck) (hW : 0 ≤ i.W_deck) (hT : 0 ≤ i.T_deck)
    (hH : 0 ≤ i.H_piers) (hD : 0 < i.D_piers) (hw : 0 ≤ i.H_wave)
    (he : i.H_wave ≤ i.H_piers) (hA : 0 ≤ i.A_seismic) :
    (∀ v₁ v₂ : ℚ, 0 ≤ v₁ → v₁ ≤ v₂ →
      sigma_max { i with V_wind := v₁ } ≤ sigma_max { i with V_wind := v₂ }) ∧
    (∀ a₁ a₂ : ℚ, 0 ≤ a₁ → a₁ ≤ a₂ →
      sigma_max { i with A_seismic := a₁ } ≤ sigma_max { i with A_seismic := a₂ }) := by
  have hpi := npPi_pos
  have hIpos : 0 < I_pier i := by unfold I_pier; positivity
  have harea : 0 ≤ i.L_deck * i.T_deck + i.D_piers * (i.H_piers - i.H_wave) :=
    add_nonneg (mul_nonneg hL hT) (mul_nonneg hD.le (by linarith))
  have hmass : 0 ≤ Mass_total i := by
    unfold Mass_total Vol_deck Vol_piers Area_pier rho_c
    have h1 : 0 ≤ i.L_deck * i.W_deck * i.T_deck := mul_nonneg (mul_nonneg hL hW) hT
    have h2 : 0 ≤ npPi * (i.D_piers / 2) ^ 2 * i.H_piers * 2 :=
      mul_nonneg (mul_nonneg (mul_nonneg hpi.le (sq_nonneg _)) hH) (by norm_num)
    linarith
  have hwater : 0 ≤ F_water i := by
    unfold F_water rho_w
    positivity
  have hwaterterm : 0 ≤ F_water i * i.H_wave / 2 :=
    div_nonneg (mul_nonneg hwater hw) (by norm_num)
  constructor
  · intro v₁ v₂ hv₁ hv
    have hM : ∀ v : ℚ, Moment_base { i with V_wind := v } =
        0.5 * 1.2 * v ^ 2 * (i.L_deck * i.T_deck +
          i.D_piers * (i.H_piers - i.H_wave)) * i.H_piers +
        F_water i * i.H_wave / 2 + F_seismic i * i.H_piers / 2 := fun _ => rfl
    have hseis : 0 ≤ F_seismic i := by
      unfold F_seismic
      exact mul_nonneg hmass (mul_nonneg hA (by norm_num))
    have hseisterm : 0 ≤ F_seismic i * i.H_piers / 2 :=
      div_nonneg (mul_nonneg hseis hH) (by norm_num)
    have hM1 : 0 ≤ Moment_base { i with V_wind := v₁ } := by
      rw [hM v₁]
      have h1 : 0 ≤ 0.5 * 1.2 * v₁ ^ 2 * (i.L_deck * i.T_deck +
          i.D_piers * (i.H_piers - i.H_wave)) * i.H_piers :=
        mul_nonneg (mul_nonneg (by positivity) harea) hH
      linarith
    have hMle : Moment_base { i with V_wind := v₁ } ≤
        Moment_base { i with V_wind := v₂ } := by
      rw [hM v₁, hM v₂]
      have hsq : v₁ ^ 2 ≤ v₂ ^ 2 := by nlinarith
      have h2 := mul_le_mul_of_nonneg_right (mul_le_mul_of_nonneg_right
        (by linarith : 0.5 * 1.2 * v₁ ^ 2 ≤ 0.5 * 1.2 * v₂ ^ 2) harea) hH
      linarith
    exact sigma_max_le_of_moment rfl rfl rfl hIpos hD.le hM1 hMle
  · intro a₁ a₂ ha₁ ha
    have hwind : 0 ≤ F_wind i := by
      unfold F_wind
      exact mul_nonneg (by positivity) harea
    have hwindterm : 0 ≤ F_wind i * i.H_piers := mul_nonneg hwind hH
    have hM : ∀ a : ℚ, Moment_base { i with A_seismic := a } =
        F_wind i * i.H_piers + F_water i * i.H_wave / 2 +
        Mass_total i * (a * 9.81) * i.H_piers / 2 := fun _ => rfl
    have hM1 : 0 ≤ Moment_base { i with A_seismic := a₁ } := by
      rw [hM a₁]
      have h1 : 0 ≤ Mass_total i * (a₁ * 9.81) * i.H_piers / 2 :=
        div_nonneg (mul_nonneg (mul_nonneg hmass
          (mul_nonneg ha₁ (by norm_num))) hH) (by norm_num)
      linarith
    have hMle : Moment_base { i with A_seismic := a₁ } ≤
        Moment_base { i with A_seismic := a₂ } := by
      rw [hM a₁, hM a₂]
      have h2 : Mass_total i * (a₁ * 9.81) * i.H_piers ≤
          Mass_total i * (a₂ * 9.81) * i.H_piers :=
        mul_le_mul_of_nonneg_right (mul_le_mul_of_nonneg_left
          (by linarith) hmass) hH
      linarith
    exact sigma_max_le_of_moment rfl rfl rfl hIpos hD.le hM1 hMle

/-- Witness for C4's amended statement: at the default geometry, raising
the wind speed from 0 to 50 m/s, or the seismic acceleration from 0 to
0.3 g, does not decrease the combined stress. -/
theorem C4_wind_seismic_monotone_witness :
    sigma_max (Input.mk 200 15 2.5 30 4 0 5 0.3) ≤
      sigma_max (Input.mk 200 15 2.5 30 4 50 5 0.3) ∧
    sigma_max (Input.mk 200 15 2.5 30 4 40 5 0) ≤
      sigma_max (Input.mk 200 15 2.5 30 4 40 5 0.3) :=
  ⟨(C4_wind_seismic_monotone (Input.mk 200 15 2.5 30 4 0 5 0.3)
      (by norm_num) (by norm_num) (by norm_num) (by norm_num) (by norm_num)
      (by norm_num) (by norm_num) (by norm_num)).1 0 50 (by norm_num) (by norm_num),
   (C4_wind_seismic_monotone (Input.mk 200 15 2.5 30 4 40 5 0)
      (by norm_num) (by norm_num) (by norm_num) (by norm_num) (by norm_num)
      (by norm_num) (by norm_num) (by norm_num)).2 0 0.3 (by norm_num) (by norm_num)⟩

end Bridge
